import Mathlib

/-!
# HemeLB lattice-Boltzmann engine (`Code/lb/lb.cc`)

A shallow embedding of `hemelb::lb::LBM`.  Scalars of type `distribn_t`/`double`
are taken from an arbitrary field `K` (exact arithmetic); `sqrt` is passed as a
function so that the definitions stay executable over `ℚ`.  Site indices and site
counts (`site_t`, `size_t`) are natural numbers; pointers are natural numbers
with `NULL = 0`.
-/

namespace hemelb.lb

/-- Modelled from the spec: the constant `COLLISION_TYPES` is declared outside
`lb.cc`; the spec fixes six collision types (mid-fluid, wall, inlet, outlet,
inlet-wall, outlet-wall). -/
def COLLISION_TYPES : Nat := 6

/-- Modelled from the spec: `D3Q15::NUMVECTORS` is declared outside `lb.cc`;
the lattice has 15 directions. -/
def D3Q15.NUMVECTORS : Nat := 15

/-- The null pointer. -/
def NULL : Nat := 0

/-- The parameter block `LbmParameters` written by `RecalculateTauViscosityOmega`. -/
structure LbmParameters (K : Type) where
  Tau : K
  Omega : K
  StressParameter : K
  Beta : K

/-- The part of `SimulationState` read by `lb.cc`. -/
structure SimulationState where
  TimeStepsPerCycle : Nat

/-- The part of `geometry::LatticeData` used by `lb.cc`: the two population
buffers and the site bookkeeping. -/
structure LatticeData (K : Type) where
  FOld : Nat → K
  FNew : Nat → K
  LocalFluidSiteCount : Nat
  InnerSiteCount : Nat
  InnerCollisionCount : Nat → Nat
  InterCollisionCount : Nat → Nat
  BoundaryId : Nat → Nat

/-- One entry of `NetworkTopology::NeighbouringProcs`. -/
structure NeighbouringProcessor where
  Rank : Nat
  SharedFCount : Nat
  FirstSharedF : Nat
deriving DecidableEq, Repr

/-- The part of `topology::NetworkTopology` read by `lb.cc`. -/
structure NetworkTopology where
  NeighbouringProcs : List NeighbouringProcessor
  TotalSharedFs : Nat

/-- The members of `LBM` used by the functions below.  `CO` is the state of the
collision operator; `isRendering` is the answer of `mVisControl->IsRendering()`. -/
structure LBM (K : Type) (CO : Type) where
  mParams : LbmParameters K
  voxel_size : K
  mState : SimulationState
  mLatDat : LatticeData K
  outlets : Nat
  outlet_density_avg : Nat → K
  outlet_density_amp : Nat → K
  inlet_normal : Nat → K
  receivedFTranslator : Nat → Nat
  mCollisionOperator : CO
  isRendering : Bool
  mStreamAndCollide : Nat
  mPostStep : Nat
  mMidFluidCollision : Nat
  mWallCollision : Nat
  mInletCollision : Nat
  mOutletCollision : Nat
  mInletWallCollision : Nat
  mOutletWallCollision : Nat

variable {K : Type} {CO : Type}

/-! ## Collision objects -/

/-- The live objects of the free store, by address. -/
abbrev Heap := List Nat

/-- A `new` expression: the allocator picks the address of the fresh object,
which joins the live objects. -/
def opNew (alloc : Heap → Nat) (h : Heap) : Nat × Heap :=
  (alloc h, alloc h :: h)

/-- What C++ promises of `new`: the address is not null and is not the address
of a live object. -/
def AllocatorOk (alloc : Heap → Nat) : Prop :=
  ∀ h : Heap, alloc h ≠ NULL ∧ alloc h ∉ h

/-- A bump allocator: one past the largest live address. -/
def bumpAlloc (h : Heap) : Nat := h.foldl max 0 + 1

/-- Source function `LBM::InitCollisions`: the two visitors and then the six collision objects
are allocated, in the order of the source. -/
def InitCollisions (alloc : Heap → Nat) (h : Heap) (s : LBM K CO) : LBM K CO × Heap :=
  let (pStreamAndCollide, h) := opNew alloc h
  let (pPostStep, h) := opNew alloc h
  let (pMidFluid, h) := opNew alloc h
  let (pWall, h) := opNew alloc h
  let (pInlet, h) := opNew alloc h
  let (pOutlet, h) := opNew alloc h
  let (pInletWall, h) := opNew alloc h
  let (pOutletWall, h) := opNew alloc h
  ({ s with
      mStreamAndCollide := pStreamAndCollide
      mPostStep := pPostStep
      mMidFluidCollision := pMidFluid
      mWallCollision := pWall
      mInletCollision := pInlet
      mOutletCollision := pOutlet
      mInletWallCollision := pInletWall
      mOutletWallCollision := pOutletWall }, h)

/-- Source function `LBM::GetCollision`: the `switch` over `i`, falling through to `NULL`. -/
def GetCollision (s : LBM K CO) (i : Int) : Nat :=
  if i = 0 then s.mMidFluidCollision
  else if i = 1 then s.mWallCollision
  else if i = 2 then s.mInletCollision
  else if i = 3 then s.mOutletCollision
  else if i = 4 then s.mInletWallCollision
  else if i = 5 then s.mOutletWallCollision
  else NULL

/-! ## Visitor dispatch -/

/-- One call `GetCollision(type)->AcceptCollisionVisitor(visitor, isRendering,
offset, count, ...)`: the receiver, the visitor and the half-open site range
`[offset, offset + count)`. -/
structure VisitorCall where
  collision : Nat
  visitor : Nat
  isRendering : Bool
  offset : Nat
  count : Nat
deriving DecidableEq, Repr

/-- Source function `LBM::PreSend`: the final running offset and the calls made, in order. -/
def PreSend (s : LBM K CO) : Nat × List VisitorCall :=
  (List.range COLLISION_TYPES).foldl
    (fun (st : Nat × List VisitorCall) (collision_type : Nat) =>
      (st.1 + s.mLatDat.InterCollisionCount collision_type,
       st.2 ++ [{ collision := GetCollision s (collision_type : Int)
                  visitor := s.mStreamAndCollide
                  isRendering := s.isRendering
                  offset := st.1
                  count := s.mLatDat.InterCollisionCount collision_type }]))
    (s.mLatDat.InnerSiteCount, [])

/-- Source function `LBM::PreReceive`: the final running offset and the calls made, in order. -/
def PreReceive (s : LBM K CO) : Nat × List VisitorCall :=
  (List.range COLLISION_TYPES).foldl
    (fun (st : Nat × List VisitorCall) (collision_type : Nat) =>
      (st.1 + s.mLatDat.InnerCollisionCount collision_type,
       st.2 ++ [{ collision := GetCollision s (collision_type : Int)
                  visitor := s.mStreamAndCollide
                  isRendering := s.isRendering
                  offset := st.1
                  count := s.mLatDat.InnerCollisionCount collision_type }]))
    (0, [])

/-- The second half of `LBM::PostReceive` (the clean-up on boundary nodes): one
running offset, first over the inner counts and then over the inter counts. -/
def PostReceive_visits (s : LBM K CO) : Nat × List VisitorCall :=
  let st :=
    (List.range COLLISION_TYPES).foldl
      (fun (st : Nat × List VisitorCall) (collision_type : Nat) =>
        (st.1 + s.mLatDat.InnerCollisionCount collision_type,
         st.2 ++ [{ collision := GetCollision s (collision_type : Int)
                    visitor := s.mPostStep
                    isRendering := s.isRendering
                    offset := st.1
                    count := s.mLatDat.InnerCollisionCount collision_type }]))
      (0, [])
  (List.range COLLISION_TYPES).foldl
    (fun (st : Nat × List VisitorCall) (collision_type : Nat) =>
      (st.1 + s.mLatDat.InterCollisionCount collision_type,
       st.2 ++ [{ collision := GetCollision s (collision_type : Int)
                  visitor := s.mPostStep
                  isRendering := s.isRendering
                  offset := st.1
                  count := s.mLatDat.InterCollisionCount collision_type }]))
    st

/-- Site `x` lies in the range of the call. -/
def VisitorCall.Visits (c : VisitorCall) (x : Nat) : Prop :=
  c.offset ≤ x ∧ x < c.offset + c.count

/-- Executable form of `Visits`. -/
def VisitorCall.visitsB (c : VisitorCall) (x : Nat) : Bool :=
  decide (c.offset ≤ x ∧ x < c.offset + c.count)

/-- The ranges of two calls share no site. -/
def VisitorCall.Apart (a b : VisitorCall) : Prop :=
  ∀ x : Nat, ¬ (a.Visits x ∧ b.Visits x)

/-- Each call starts where the one before it ended, the first at `start`. -/
def Consecutive : Nat → List VisitorCall → Prop
  | _, [] => True
  | start, c :: cs => c.offset = start ∧ Consecutive (c.offset + c.count) cs

/-- The receiver and the site range of a call. -/
def VisitorCall.target (c : VisitorCall) : Nat × Nat × Nat :=
  (c.collision, c.offset, c.count)

/-! ## Halo exchange -/

/-- The population buffer a transfer request points into. -/
inductive Buffer where
  | FOld
  | FNew
deriving DecidableEq, Repr

/-- The direction of a posted request. -/
inductive RequestKind where
  | Receive
  | Send
deriving DecidableEq, Repr

/-- A request posted on `net::Net`: `RequestReceive(GetFOld(first), count, rank)`
or `RequestSend(GetFNew(first), count, rank)`; `count` is an `int`. -/
structure Request where
  kind : RequestKind
  buffer : Buffer
  first : Nat
  count : Int
  rank : Nat
deriving DecidableEq, Repr

/-- The conversion `(int) x` of a count to a 32-bit `int`. -/
def castInt (x : Nat) : Int := Int.bmod (x : Int) (2 ^ 32)

/-- Source function `LBM::RequestComms`: the requests held by the net after the loop over the
neighbouring processors, given those posted before. -/
def RequestComms (netTop : NetworkTopology) (mNet : List Request) : List Request :=
  netTop.NeighbouringProcs.foldl
    (fun (mNet : List Request) (it : NeighbouringProcessor) =>
      let mNet := mNet ++ [{ kind := RequestKind.Receive, buffer := Buffer.FOld,
                             first := it.FirstSharedF, count := castInt it.SharedFCount,
                             rank := it.Rank }]
      mNet ++ [{ kind := RequestKind.Send, buffer := Buffer.FNew,
                 first := it.FirstSharedF, count := castInt it.SharedFCount,
                 rank := it.Rank }])
    mNet

/-- The first half of `LBM::PostReceive`: the copy of the received populations
into `f_new`.  Reading `NeighbouringProcs[0]` of an empty vector has no defined
result, which is `none`. -/
def PostReceive_copy (netTop : NetworkTopology) (s : LBM K CO) : Option (LBM K CO) :=
  (List.range netTop.TotalSharedFs).foldl
    (fun (st : Option (LBM K CO)) (i : Nat) =>
      match st, netTop.NeighbouringProcs.head? with
      | some s, some p0 =>
        some { s with mLatDat := { s.mLatDat with
                 FNew := Function.update s.mLatDat.FNew (s.receivedFTranslator i)
                           (s.mLatDat.FOld (p0.FirstSharedF + i)) } }
      | _, _ => none)
    (some s)

/-- Source function `LBM::PostReceive`: the copy loop, then the clean-up calls. -/
def PostReceive (netTop : NetworkTopology) (s : LBM K CO) :
    Option (LBM K CO × List VisitorCall) :=
  match PostReceive_copy netTop s with
  | some s' => some (s', (PostReceive_visits s').2)
  | none => none

/-! ## Parameters and initial conditions -/

/-- The physical constants read by `RecalculateTauViscosityOmega`; they are
declared outside `lb.cc`. -/
structure PhysicalConstants (K : Type) where
  PULSATILE_PERIOD_s : K
  BLOOD_VISCOSITY_Pa_s : K
  BLOOD_DENSITY_Kg_per_m3 : K
  Cs2 : K

/-- Source function `LBM::RecalculateTauViscosityOmega`. -/
def RecalculateTauViscosityOmega [Field K] (sqrt : K → K) (c : PhysicalConstants K)
    (s : LBM K CO) : LBM K CO :=
  let mParams := { s.mParams with
    Tau := 1 / 2 + (c.PULSATILE_PERIOD_s * c.BLOOD_VISCOSITY_Pa_s / c.BLOOD_DENSITY_Kg_per_m3)
      / (c.Cs2 * ((s.mState.TimeStepsPerCycle : K) * s.voxel_size * s.voxel_size)) }
  let mParams := { mParams with Omega := -1 / mParams.Tau }
  let mParams := { mParams with StressParameter := (1 - 1 / (2 * mParams.Tau)) / sqrt 2 }
  let mParams := { mParams with Beta := -1 / (2 * mParams.Tau) }
  { s with mParams := mParams }

/-- The density computed at the head of `SetInitialConditions`: the running sum
over the outlets, divided by their number. -/
def initialDensity [Field K] (s : LBM K CO) : K :=
  let density : K := 0
  let density := (List.range s.outlets).foldl
    (fun (density : K) (i : Nat) => density + (s.outlet_density_avg i - s.outlet_density_amp i))
    density
  density / (s.outlets : K)

/-- The inner loop of `SetInitialConditions` for site `i`: with
`f_old_p = GetFOld(i * NUMVECTORS)` and `f_new_p = GetFNew(i * NUMVECTORS)`, the
statement `f_new_p[l] = f_old_p[l] = f_eq[l]` for each direction `l`. -/
def setSitePopulations (f_eq : Nat → K) (i : Nat) (mLatDat : LatticeData K) : LatticeData K :=
  (List.range D3Q15.NUMVECTORS).foldl
    (fun (mLatDat : LatticeData K) (l : Nat) =>
      let mLatDat := { mLatDat with
        FOld := Function.update mLatDat.FOld (i * D3Q15.NUMVECTORS + l) (f_eq l) }
      { mLatDat with
        FNew := Function.update mLatDat.FNew (i * D3Q15.NUMVECTORS + l)
                  (mLatDat.FOld (i * D3Q15.NUMVECTORS + l)) })
    mLatDat

/-- Source function `LBM::SetInitialConditions`; `CalculateFeq density v_x v_y v_z` is the array
`f_eq` filled by `D3Q15::CalculateFeq`. -/
def SetInitialConditions [Field K] (CalculateFeq : K → K → K → K → Nat → K)
    (s : LBM K CO) : LBM K CO :=
  let density := initialDensity s
  let mLatDat := (List.range s.mLatDat.LocalFluidSiteCount).foldl
    (fun (mLatDat : LatticeData K) (i : Nat) =>
      let f_eq := CalculateFeq density 0 0 0
      setSitePopulations f_eq i mLatDat)
    s.mLatDat
  { s with mLatDat := mLatDat }

/-- Source function `LBM::Reset`.  The collision operator's own `Reset` is
declared outside `lb.cc` and is the parameter `coReset`: by the spec it resets
the operator's cached state, from the lattice data and the parameter block. -/
def Reset [Field K] (sqrt : K → K) (c : PhysicalConstants K)
    (CalculateFeq : K → K → K → K → Nat → K)
    (coReset : LatticeData K → LbmParameters K → CO → CO) (s : LBM K CO) : LBM K CO :=
  let s := RecalculateTauViscosityOmega sqrt c s
  let s := SetInitialConditions CalculateFeq s
  { s with mCollisionOperator := coReset s.mLatDat s.mParams s.mCollisionOperator }

/-- Modelled from the spec: `D3Q15::CalculateFeq` is declared outside `lb.cc`.
The spec asks for the second-order equilibrium of the 15-velocity lattice; its
weights are 2/9 for the rest direction, 1/9 along the axes and 1/72 along the
diagonals. -/
def D3Q15.weight [Field K] (l : Nat) : K :=
  if l = 0 then 2 / 9 else if l < 7 then 1 / 9 else 1 / 72

/-- Modelled from the spec: the x, y and z components of the 15 lattice
directions. -/
def D3Q15.CX : List Int := [0, 1, -1, 0, 0, 0, 0, 1, -1, 1, -1, 1, -1, 1, -1]

/-- Modelled from the spec: see `D3Q15.CX`. -/
def D3Q15.CY : List Int := [0, 0, 0, 1, -1, 0, 0, 1, -1, 1, -1, -1, 1, -1, 1]

/-- Modelled from the spec: see `D3Q15.CX`. -/
def D3Q15.CZ : List Int := [0, 0, 0, 0, 0, 1, -1, 1, -1, -1, 1, 1, -1, -1, 1]

/-- Modelled from the spec: `D3Q15::CalculateFeq`, the second-order equilibrium
for a density and a momentum `(v_x, v_y, v_z)`. -/
def D3Q15.CalculateFeq [Field K] (density v_x v_y v_z : K) (l : Nat) : K :=
  let cv : K := (D3Q15.CX.getD l 0 : K) * v_x + (D3Q15.CY.getD l 0 : K) * v_y
                + (D3Q15.CZ.getD l 0 : K) * v_z
  let vv : K := v_x * v_x + v_y * v_y + v_z * v_z
  D3Q15.weight l * (density + 3 * cv + (9 / 2) * (cv * cv) / density - (3 / 2) * vv / density)

/-! ## Inlet velocities -/

/-- The body of both loops of `LBM::UpdateInletVelocities`, after
`CalculateDensityAndVelocity` has produced `density`, `vx`, `vy`, `vz`: the
value left in `velocity` for a site whose inlet has normal `(n0, n1, n2)`. -/
def inletVelocity [LinearOrderedField K] (sqrt : K → K)
    (density vx vy vz n0 n1 n2 : K) : K :=
  let vx := vx * n0
  let vy := vy * n1
  let vz := vz * n2
  let velocity := vx * vx + vy * vy + vz * vz
  if velocity > 0 then sqrt velocity / density else -sqrt velocity / density

/-- The value computed for site `i`; `CalculateDensityAndVelocity` (declared
outside `lb.cc`) maps the 15 populations of a site to density and velocity. -/
def inletVelocityAt [LinearOrderedField K] (sqrt : K → K)
    (CalculateDensityAndVelocity : (Nat → K) → K × K × K × K) (s : LBM K CO) (i : Nat) : K :=
  let dv := CalculateDensityAndVelocity (fun l => s.mLatDat.FOld (i * D3Q15.NUMVECTORS + l))
  let inlet_id := s.mLatDat.BoundaryId i
  inletVelocity sqrt dv.1 dv.2.1 dv.2.2.1 dv.2.2.2
    (s.inlet_normal (3 * inlet_id + 0)) (s.inlet_normal (3 * inlet_id + 1))
    (s.inlet_normal (3 * inlet_id + 2))

/-- Source function `LBM::UpdateInletVelocities`: the sites visited by the two loops, each with
the value computed for it, in order. -/
def UpdateInletVelocities [LinearOrderedField K] (sqrt : K → K)
    (CalculateDensityAndVelocity : (Nat → K) → K × K × K × K) (s : LBM K CO) :
    List (Nat × K) :=
  let offset := s.mLatDat.InnerCollisionCount 0 + s.mLatDat.InnerCollisionCount 1
  let out := (List.range' offset (s.mLatDat.InnerCollisionCount 2)).foldl
    (fun (out : List (Nat × K)) (i : Nat) =>
      out ++ [(i, inletVelocityAt sqrt CalculateDensityAndVelocity s i)]) []
  let offset := s.mLatDat.InnerSiteCount + s.mLatDat.InterCollisionCount 0
    + s.mLatDat.InterCollisionCount 1
  (List.range' offset (s.mLatDat.InterCollisionCount 2)).foldl
    (fun (out : List (Nat × K)) (i : Nat) =>
      out ++ [(i, inletVelocityAt sqrt CalculateDensityAndVelocity s i)]) out

/-! ## Concrete states -/

/-- A state with inner counts 1, 2, .., 6 (21 inner sites), inter counts
0, 2, .., 10, one outlet of average density 1 and amplitude 1/2, and 1000 time
steps per cycle. -/
def exampleLBM (K : Type) [Field K] : LBM K Unit where
  mParams := { Tau := 0, Omega := 0, StressParameter := 0, Beta := 0 }
  voxel_size := 1 / 100
  mState := { TimeStepsPerCycle := 1000 }
  mLatDat := { FOld := fun i => (i : K)
               FNew := fun _ => 0
               LocalFluidSiteCount := 51
               InnerSiteCount := 21
               InnerCollisionCount := fun k => k + 1
               InterCollisionCount := fun k => 2 * k
               BoundaryId := fun _ => 0 }
  outlets := 1
  outlet_density_avg := fun _ => 1
  outlet_density_amp := fun _ => 1 / 2
  inlet_normal := fun _ => 1
  receivedFTranslator := fun i => 2 * i
  mCollisionOperator := ()
  isRendering := false
  mStreamAndCollide := 0
  mPostStep := 0
  mMidFluidCollision := 0
  mWallCollision := 0
  mInletCollision := 0
  mOutletCollision := 0
  mInletWallCollision := 0
  mOutletWallCollision := 0

/-- The values of the physical constants: a period of 60/70 s, a viscosity of
0.004 Pa s, a density of 1000 kg/m3 and a squared speed of sound of 1/3. -/
def examplePhysics (K : Type) [Field K] : PhysicalConstants K where
  PULSATILE_PERIOD_s := 60 / 70
  BLOOD_VISCOSITY_Pa_s := 4 / 1000
  BLOOD_DENSITY_Kg_per_m3 := 1000
  Cs2 := 1 / 3

/-- A second state: `exampleLBM` with another parameter block, other populations
and another collision operator state left over. -/
def exampleLBM2 (K : Type) [Field K] : LBM K Unit :=
  { exampleLBM K with
    mParams := { Tau := 1, Omega := 2, StressParameter := 3, Beta := 4 }
    mLatDat := { (exampleLBM K).mLatDat with FOld := fun _ => 7, FNew := fun i => (i : K) * 2 }
    isRendering := true }

/-- A topology with two neighbours sharing 30 and 45 populations. -/
def exampleTopology : NetworkTopology where
  NeighbouringProcs := [{ Rank := 3, SharedFCount := 30, FirstSharedF := 765 },
                        { Rank := 7, SharedFCount := 45, FirstSharedF := 795 }]
  TotalSharedFs := 75

/-- A topology with one neighbour sharing 2^31 populations, one more than a
32-bit `int` can hold. -/
def wideTopology : NetworkTopology where
  NeighbouringProcs := [{ Rank := 1, SharedFCount := 2147483648, FirstSharedF := 0 }]
  TotalSharedFs := 2147483648

/-! ## Theorems -/

theorem range_COLLISION_TYPES : List.range COLLISION_TYPES = [0, 1, 2, 3, 4, 5] := by
  decide

/-- C1: for every assignment of the inner and inter counts, the six calls of
`PreReceive` go to `GetCollision 0 .. 5` with the inner counts, start at 0, each
start where the one before ended, are pairwise apart and cover exactly the sites
below the sum of the inner counts, which is the final running offset; the six
calls of `PreSend` do the same with the inter counts from `InnerSiteCount` on. -/
theorem PreReceive_PreSend_tile (s : LBM K CO) :
    ((PreReceive s).2.map VisitorCall.count
        = (List.range 6).map s.mLatDat.InnerCollisionCount
      ∧ (PreReceive s).2.map VisitorCall.collision
        = (List.range 6).map (fun k : Nat => GetCollision s (k : Int))
      ∧ Consecutive 0 (PreReceive s).2
      ∧ (PreReceive s).2.Pairwise VisitorCall.Apart
      ∧ (∀ x : Nat, (∃ c ∈ (PreReceive s).2, c.Visits x)
          ↔ x < ∑ k in Finset.range 6, s.mLatDat.InnerCollisionCount k)
      ∧ (PreReceive s).1 = ∑ k in Finset.range 6, s.mLatDat.InnerCollisionCount k)
    ∧ ((PreSend s).2.map VisitorCall.count
        = (List.range 6).map s.mLatDat.InterCollisionCount
      ∧ (PreSend s).2.map VisitorCall.collision
        = (List.range 6).map (fun k : Nat => GetCollision s (k : Int))
      ∧ Consecutive s.mLatDat.InnerSiteCount (PreSend s).2
      ∧ (PreSend s).2.Pairwise VisitorCall.Apart
      ∧ (∀ x : Nat, (∃ c ∈ (PreSend s).2, c.Visits x)
          ↔ (s.mLatDat.InnerSiteCount ≤ x
              ∧ x < s.mLatDat.InnerSiteCount
                    + ∑ k in Finset.range 6, s.mLatDat.InterCollisionCount k))
      ∧ (PreSend s).1 = s.mLatDat.InnerSiteCount
          + ∑ k in Finset.range 6, s.mLatDat.InterCollisionCount k) := by
  have hr : List.range 6 = [0, 1, 2, 3, 4, 5] := by decide
  simp only [PreReceive, PreSend, range_COLLISION_TYPES, hr, List.foldl_cons, List.foldl_nil,
    List.nil_append, List.cons_append, List.map_cons, List.map_nil, Consecutive,
    List.pairwise_cons, VisitorCall.Apart, VisitorCall.Visits, Finset.sum_range_succ,
    Finset.sum_range_zero, List.mem_cons, List.mem_singleton, exists_eq_or_imp, exists_eq_left,
    List.not_mem_nil, forall_eq_or_imp, forall_eq, List.Pairwise.nil, false_imp_iff,
    implies_true, and_true, true_and, false_and, exists_false, or_false]
  repeat' apply And.intro
  all_goals omega

theorem countP_Visits_eq_one (x : Nat) (l : List VisitorCall)
    (hp : l.Pairwise VisitorCall.Apart) (hx : ∃ c ∈ l, c.Visits x) :
    l.countP (fun c => c.visitsB x) = 1 := by
  induction l with
  | nil => simp at hx
  | cons c l ih =>
    rw [List.pairwise_cons] at hp
    rw [List.countP_cons]
    by_cases hc : c.Visits x
    · have h0 : l.countP (fun c => c.visitsB x) = 0 := by
        rw [List.countP_eq_zero]
        intro b hb
        have := hp.1 b hb x
        simp only [VisitorCall.visitsB, decide_eq_true_eq]
        exact fun hbx => this ⟨hc, hbx⟩
      have hc' : c.visitsB x = true := by
        simpa [VisitorCall.visitsB, VisitorCall.Visits] using hc
      simp [h0, hc']
    · have hx' : ∃ c ∈ l, c.Visits x := by
        obtain ⟨d, hd, hdx⟩ := hx
        rcases List.mem_cons.1 hd with rfl | hd
        · exact absurd hdx hc
        · exact ⟨d, hd, hdx⟩
      have hc' : c.visitsB x = false := by
        simpa [VisitorCall.visitsB, VisitorCall.Visits] using hc
      simp [ih hp.2 hx', hc']

/-- C8: when the inner counts sum to `InnerSiteCount`, the twelve Post-Step calls
of `PostReceive` have, in order, the receivers and site ranges of the six calls
of `PreReceive` followed by the six of `PreSend` (which carry the
Stream-and-Collide visitor), each group in type order 0..5; the twelve ranges
follow one another from 0, are pairwise apart and cover exactly the sites below
`InnerSiteCount` plus the sum of the inter counts, each of which lies in the
range of exactly one call. -/
theorem PostReceive_visits_match (s : LBM K CO)
    (hsum : ∑ k in Finset.range 6, s.mLatDat.InnerCollisionCount k = s.mLatDat.InnerSiteCount) :
    (PostReceive_visits s).2.map VisitorCall.target
        = ((PreReceive s).2 ++ (PreSend s).2).map VisitorCall.target
    ∧ (∀ c ∈ (PostReceive_visits s).2, c.visitor = s.mPostStep)
    ∧ (∀ c ∈ (PreReceive s).2 ++ (PreSend s).2, c.visitor = s.mStreamAndCollide)
    ∧ (PostReceive_visits s).2.map VisitorCall.collision
        = (List.range 6 ++ List.range 6).map (fun k : Nat => GetCollision s (k : Int))
    ∧ (PostReceive_visits s).2.map VisitorCall.count
        = (List.range 6).map s.mLatDat.InnerCollisionCount
          ++ (List.range 6).map s.mLatDat.InterCollisionCount
    ∧ Consecutive 0 (PostReceive_visits s).2
    ∧ (PostReceive_visits s).2.Pairwise VisitorCall.Apart
    ∧ (∀ x : Nat, (∃ c ∈ (PostReceive_visits s).2, c.Visits x)
        ↔ x < s.mLatDat.InnerSiteCount + ∑ k in Finset.range 6, s.mLatDat.InterCollisionCount k)
    ∧ (∀ x : Nat,
        x < s.mLatDat.InnerSiteCount + ∑ k in Finset.range 6, s.mLatDat.InterCollisionCount k →
        (PostReceive_visits s).2.countP (fun c => c.visitsB x) = 1) := by
  have hr : List.range 6 = [0, 1, 2, 3, 4, 5] := by decide
  have hpair : (PostReceive_visits s).2.Pairwise VisitorCall.Apart := by
    simp only [PostReceive_visits, range_COLLISION_TYPES, List.foldl_cons, List.foldl_nil,
      List.nil_append, List.cons_append, List.pairwise_cons, VisitorCall.Apart,
      VisitorCall.Visits, List.mem_cons, List.mem_singleton, List.not_mem_nil, forall_eq_or_imp,
      forall_eq, List.Pairwise.nil, false_imp_iff, implies_true, and_true]
    repeat' apply And.intro
    all_goals omega
  have hcover : ∀ x : Nat, (∃ c ∈ (PostReceive_visits s).2, c.Visits x)
      ↔ x < s.mLatDat.InnerSiteCount
            + ∑ k in Finset.range 6, s.mLatDat.InterCollisionCount k := by
    simp only [Finset.sum_range_succ, Finset.sum_range_zero] at hsum ⊢
    simp only [PostReceive_visits, range_COLLISION_TYPES, List.foldl_cons, List.foldl_nil,
      List.nil_append, List.cons_append, VisitorCall.Visits, List.mem_cons, List.mem_singleton,
      exists_eq_or_imp, exists_eq_left, List.not_mem_nil, false_and, exists_false, or_false]
    intro x
    omega
  refine ⟨?_, ?_, ?_, ?_, ?_, ?_, hpair, hcover, ?_⟩
  · simp only [Finset.sum_range_succ, Finset.sum_range_zero] at hsum
    simp only [PostReceive_visits, PreReceive, PreSend, range_COLLISION_TYPES, List.foldl_cons,
      List.foldl_nil, List.nil_append, List.cons_append, List.map_cons, List.map_nil,
      VisitorCall.target, List.cons.injEq, Prod.mk.injEq, true_and, and_true]
    repeat' apply And.intro
    all_goals omega
  · simp [PostReceive_visits, range_COLLISION_TYPES]
  · simp [PreReceive, PreSend, range_COLLISION_TYPES]
  · simp [PostReceive_visits, range_COLLISION_TYPES, hr]
  · simp [PostReceive_visits, range_COLLISION_TYPES, hr]
  · simp only [PostReceive_visits, range_COLLISION_TYPES, List.foldl_cons, List.foldl_nil,
      List.nil_append, List.cons_append, Consecutive, and_true, true_and]
  · intro x hx
    exact countP_Visits_eq_one x _ hpair ((hcover x).2 hx)

theorem PostReceive_visits_match_witness :
    (∑ k in Finset.range 6, (exampleLBM ℚ).mLatDat.InnerCollisionCount k
        = (exampleLBM ℚ).mLatDat.InnerSiteCount)
    ∧ (PostReceive_visits (exampleLBM ℚ)).2.map VisitorCall.target
        = ((PreReceive (exampleLBM ℚ)).2 ++ (PreSend (exampleLBM ℚ)).2).map VisitorCall.target :=
  ⟨by decide, (PostReceive_visits_match (exampleLBM ℚ) (by decide)).1⟩

theorem foldl_max_le (l : List Nat) (a x : Nat) (hx : x ∈ l) : x ≤ l.foldl max a := by
  induction l generalizing a with
  | nil => simp at hx
  | cons b l ih =>
    have hmono : ∀ (l : List Nat) (a : Nat), a ≤ l.foldl max a := by
      intro l
      induction l with
      | nil => intro a; exact le_rfl
      | cons c l ihl => intro a; exact le_trans (le_max_left a c) (ihl (max a c))
    rcases List.mem_cons.1 hx with rfl | hx
    · exact le_trans (le_max_right a x) (hmono l (max a x))
    · exact ih (max a b) hx

theorem bumpAlloc_ok : AllocatorOk bumpAlloc := by
  intro h
  refine ⟨by simp [bumpAlloc, NULL], ?_⟩
  intro hmem
  have := foldl_max_le h 0 _ hmem
  simp only [bumpAlloc] at this
  omega

/-- C2: after `InitCollisions`, run with an allocator that keeps the promise of
`new`, `GetCollision i` is not null for `i` in 0..5, differs for different
indices in 0..5 (0 mid-fluid, 1 wall, 2 inlet, 3 outlet, 4 inlet-wall,
5 outlet-wall), and is null for every other integer. -/
theorem GetCollision_after_InitCollisions (alloc : Heap → Nat) (hA : AllocatorOk alloc)
    (h : Heap) (s : LBM K CO) :
    (∀ i : Int, 0 ≤ i → i ≤ 5 → GetCollision (InitCollisions alloc h s).1 i ≠ NULL)
    ∧ (∀ i j : Int, 0 ≤ i → i ≤ 5 → 0 ≤ j → j ≤ 5 → i ≠ j →
        GetCollision (InitCollisions alloc h s).1 i ≠ GetCollision (InitCollisions alloc h s).1 j)
    ∧ (GetCollision (InitCollisions alloc h s).1 0
          = (InitCollisions alloc h s).1.mMidFluidCollision
        ∧ GetCollision (InitCollisions alloc h s).1 1
          = (InitCollisions alloc h s).1.mWallCollision
        ∧ GetCollision (InitCollisions alloc h s).1 2
          = (InitCollisions alloc h s).1.mInletCollision
        ∧ GetCollision (InitCollisions alloc h s).1 3
          = (InitCollisions alloc h s).1.mOutletCollision
        ∧ GetCollision (InitCollisions alloc h s).1 4
          = (InitCollisions alloc h s).1.mInletWallCollision
        ∧ GetCollision (InitCollisions alloc h s).1 5
          = (InitCollisions alloc h s).1.mOutletWallCollision)
    ∧ (∀ i : Int, (i < 0 ∨ 5 < i) → GetCollision (InitCollisions alloc h s).1 i = NULL) := by
  simp only [InitCollisions, opNew]
  generalize hh1 : alloc h :: h = h1
  generalize hh2 : alloc h1 :: h1 = h2
  generalize hh3 : alloc h2 :: h2 = h3
  generalize hh4 : alloc h3 :: h3 = h4
  generalize hh5 : alloc h4 :: h4 = h5
  generalize hh6 : alloc h5 :: h5 = h6
  generalize hh7 : alloc h6 :: h6 = h7
  have n2 := (hA h2).1
  have n3 := (hA h3).1
  have n4 := (hA h4).1
  have n5 := (hA h5).1
  have n6 := (hA h6).1
  have n7 := (hA h7).1
  have m3 := (hA h3).2
  have m4 := (hA h4).2
  have m5 := (hA h5).2
  have m6 := (hA h6).2
  have m7 := (hA h7).2
  subst hh7 hh6 hh5 hh4 hh3
  simp only [List.mem_cons, not_or] at m3 m4 m5 m6 m7
  refine ⟨?_, ?_, ?_, ?_⟩
  · intro i h0 h5
    interval_cases i <;> simp [GetCollision] <;> assumption
  · intro i j hi0 hi5 hj0 hj5 hij
    interval_cases i <;> interval_cases j <;> simp [GetCollision] at hij ⊢ <;> tauto
  · simp [GetCollision]
  · intro i hi
    have : i ≠ 0 ∧ i ≠ 1 ∧ i ≠ 2 ∧ i ≠ 3 ∧ i ≠ 4 ∧ i ≠ 5 := by omega
    simp [GetCollision, this]

theorem GetCollision_after_InitCollisions_witness :
    AllocatorOk bumpAlloc
    ∧ GetCollision (InitCollisions bumpAlloc [] (exampleLBM ℚ)).1 2 ≠ NULL
    ∧ GetCollision (InitCollisions bumpAlloc [] (exampleLBM ℚ)).1 2
        ≠ GetCollision (InitCollisions bumpAlloc [] (exampleLBM ℚ)).1 3
    ∧ GetCollision (InitCollisions bumpAlloc [] (exampleLBM ℚ)).1 6 = NULL :=
  ⟨bumpAlloc_ok,
   (GetCollision_after_InitCollisions bumpAlloc bumpAlloc_ok [] (exampleLBM ℚ)).1 2
     (by decide) (by decide),
   (GetCollision_after_InitCollisions bumpAlloc bumpAlloc_ok [] (exampleLBM ℚ)).2.1 2 3
     (by decide) (by decide) (by decide) (by decide) (by decide),
   (GetCollision_after_InitCollisions bumpAlloc bumpAlloc_ok [] (exampleLBM ℚ)).2.2.2 6
     (Or.inr (by decide))⟩

theorem castInt_of_lt (n : Nat) (h : n < 2 ^ 31) : castInt n = (n : Int) := by
  have h1 : (n : Int) % ((2 ^ 32 : Nat) : Int) = n := by
    apply Int.emod_eq_of_lt <;> push_cast <;> omega
  simp only [castInt, Int.bmod, h1]
  rw [if_pos]
  push_cast
  omega

theorem RequestComms_closed (procs : List NeighbouringProcessor) (total : Nat)
    (mNet : List Request) :
    RequestComms { NeighbouringProcs := procs, TotalSharedFs := total } mNet
      = mNet ++ procs.flatMap (fun it =>
          [{ kind := RequestKind.Receive, buffer := Buffer.FOld, first := it.FirstSharedF,
             count := castInt it.SharedFCount, rank := it.Rank },
           { kind := RequestKind.Send, buffer := Buffer.FNew, first := it.FirstSharedF,
             count := castInt it.SharedFCount, rank := it.Rank }]) := by
  induction procs generalizing mNet with
  | nil => simp [RequestComms]
  | cons it l ih =>
    have := ih (mNet ++ [{ kind := RequestKind.Receive, buffer := Buffer.FOld,
                           first := it.FirstSharedF, count := castInt it.SharedFCount,
                           rank := it.Rank }]
                ++ [{ kind := RequestKind.Send, buffer := Buffer.FNew,
                      first := it.FirstSharedF, count := castInt it.SharedFCount,
                      rank := it.Rank }])
    simp only [RequestComms, List.foldl_cons, List.flatMap_cons, List.append_assoc,
      List.singleton_append, List.cons_append, List.nil_append] at this ⊢
    exact this

theorem flatMap_pair_index {α β : Type} (f g : α → β) (l : List α) (k : Nat) (a : α)
    (h : l[k]? = some a) :
    (l.flatMap (fun x => [f x, g x]))[2 * k]? = some (f a)
    ∧ (l.flatMap (fun x => [f x, g x]))[2 * k + 1]? = some (g a) := by
  induction l generalizing k with
  | nil => simp at h
  | cons x l ih =>
    cases k with
    | zero =>
      simp only [List.getElem?_cons_zero, Option.some.injEq] at h
      subst h
      simp
    | succ k =>
      simp only [List.getElem?_cons_succ] at h
      have := ih k h
      have e1 : 2 * (k + 1) = (2 * k) + 1 + 1 := by ring
      have e2 : 2 * (k + 1) + 1 = (2 * k + 1) + 1 + 1 := by ring
      simp only [List.flatMap_cons, List.cons_append, List.nil_append, e1, e2,
        List.getElem?_cons_succ]
      exact this

/-- C5 (as the code has it): for every list of neighbouring processors
`RequestComms` posts, after the requests already held, for each neighbour in
list order one receive into `FOld` and one send from `FNew`, both at that
neighbour's `FirstSharedF`, with its rank and with the count
`(int) SharedFCount`, the conversion of `SharedFCount` to a 32-bit `int`, which
is `SharedFCount` itself when that is below 2^31: `n` receives and `n` sends for
`n` neighbours, and nothing when the list is empty. -/
theorem RequestComms_posts (netTop : NetworkTopology) :
    (∀ mNet : List Request, RequestComms netTop mNet
      = mNet ++ netTop.NeighbouringProcs.flatMap (fun it =>
          [{ kind := RequestKind.Receive, buffer := Buffer.FOld, first := it.FirstSharedF,
             count := castInt it.SharedFCount, rank := it.Rank },
           { kind := RequestKind.Send, buffer := Buffer.FNew, first := it.FirstSharedF,
             count := castInt it.SharedFCount, rank := it.Rank }]))
    ∧ (RequestComms netTop []).length = 2 * netTop.NeighbouringProcs.length
    ∧ (RequestComms netTop []).countP (fun r => decide (r.kind = RequestKind.Receive))
        = netTop.NeighbouringProcs.length
    ∧ (RequestComms netTop []).countP (fun r => decide (r.kind = RequestKind.Send))
        = netTop.NeighbouringProcs.length
    ∧ (∀ (k : Nat) (it : NeighbouringProcessor), netTop.NeighbouringProcs[k]? = some it →
        (RequestComms netTop [])[2 * k]?
          = some { kind := RequestKind.Receive, buffer := Buffer.FOld,
                   first := it.FirstSharedF, count := castInt it.SharedFCount, rank := it.Rank }
        ∧ (RequestComms netTop [])[2 * k + 1]?
          = some { kind := RequestKind.Send, buffer := Buffer.FNew,
                   first := it.FirstSharedF, count := castInt it.SharedFCount, rank := it.Rank })
    ∧ (∀ it ∈ netTop.NeighbouringProcs, it.SharedFCount < 2 ^ 31 →
        castInt it.SharedFCount = (it.SharedFCount : Int))
    ∧ ((∀ it ∈ netTop.NeighbouringProcs, it.SharedFCount < 2 ^ 31) →
        RequestComms netTop [] = netTop.NeighbouringProcs.flatMap (fun it =>
          [{ kind := RequestKind.Receive, buffer := Buffer.FOld, first := it.FirstSharedF,
             count := (it.SharedFCount : Int), rank := it.Rank },
           { kind := RequestKind.Send, buffer := Buffer.FNew, first := it.FirstSharedF,
             count := (it.SharedFCount : Int), rank := it.Rank }]))
    ∧ (netTop.NeighbouringProcs = [] → ∀ mNet : List Request, RequestComms netTop mNet = mNet) := by
  obtain ⟨procs, total⟩ := netTop
  have hc := RequestComms_closed procs total
  refine ⟨hc, ?_, ?_, ?_, ?_, ?_, ?_, ?_⟩
  · rw [hc]
    clear hc
    induction procs with
    | nil => simp
    | cons it l ih =>
      simp only [List.nil_append] at ih
      simp only [List.nil_append, List.flatMap_cons, List.length_append, List.length_cons,
        List.length_nil, ih]
      omega
  · rw [hc]
    clear hc
    induction procs with
    | nil => simp
    | cons it l ih =>
      simp only [List.nil_append] at ih
      simp [List.flatMap_cons, List.countP_cons, ih]
  · rw [hc]
    clear hc
    induction procs with
    | nil => simp
    | cons it l ih =>
      simp only [List.nil_append] at ih
      simp [List.flatMap_cons, List.countP_cons, ih]
  · intro k it hk
    rw [hc, List.nil_append]
    exact flatMap_pair_index _ _ procs k it hk
  · intro it _ hlt
    exact castInt_of_lt _ hlt
  · intro hfit
    rw [hc, List.nil_append]
    clear hc
    replace hfit : ∀ it ∈ procs, it.SharedFCount < 2 ^ 31 := hfit
    induction procs with
    | nil => simp only [List.flatMap_nil]
    | cons it l ih =>
      simp only [List.flatMap_cons]
      rw [ih (fun x hx => hfit x (List.mem_cons_of_mem _ hx)),
        castInt_of_lt _ (hfit it (List.mem_cons_self _ _))]
  · intro hnil mNet
    simp only at hnil
    rw [hc, hnil]
    simp

theorem RequestComms_posts_witness :
    exampleTopology.NeighbouringProcs[1]?
      = some { Rank := 7, SharedFCount := 45, FirstSharedF := 795 }
    ∧ (RequestComms exampleTopology [])[2]?
      = some { kind := RequestKind.Receive, buffer := Buffer.FOld, first := 795,
               count := castInt 45, rank := 7 }
    ∧ castInt 45 = 45
    ∧ RequestComms exampleTopology []
      = [{ kind := RequestKind.Receive, buffer := Buffer.FOld, first := 765, count := 30,
           rank := 3 },
         { kind := RequestKind.Send, buffer := Buffer.FNew, first := 765, count := 30,
           rank := 3 },
         { kind := RequestKind.Receive, buffer := Buffer.FOld, first := 795, count := 45,
           rank := 7 },
         { kind := RequestKind.Send, buffer := Buffer.FNew, first := 795, count := 45,
           rank := 7 }] :=
  ⟨by decide,
   ((RequestComms_posts exampleTopology).2.2.2.2.1 1
      { Rank := 7, SharedFCount := 45, FirstSharedF := 795 } (by decide)).1,
   (RequestComms_posts exampleTopology).2.2.2.2.2.1
      { Rank := 7, SharedFCount := 45, FirstSharedF := 795 } (by decide) (by decide),
   (RequestComms_posts exampleTopology).2.2.2.2.2.2.1 (by
      intro it hit
      simp only [exampleTopology, List.mem_cons, List.mem_singleton, List.not_mem_nil,
        or_false] at hit
      rcases hit with rfl | rfl <;> norm_num)⟩

/-- C5 as stated fails: for a neighbour with `SharedFCount = 2^31` the receive
and the send are posted with the count `(int) SharedFCount = -2147483648`, not
with the element count `SharedFCount = 2147483648`. -/
theorem RequestComms_count_counterexample :
    RequestComms wideTopology []
        = [{ kind := RequestKind.Receive, buffer := Buffer.FOld, first := 0,
             count := -2147483648, rank := 1 },
           { kind := RequestKind.Send, buffer := Buffer.FNew, first := 0,
             count := -2147483648, rank := 1 }]
    ∧ ¬ (RequestComms wideTopology []
        = wideTopology.NeighbouringProcs.flatMap (fun it =>
          [{ kind := RequestKind.Receive, buffer := Buffer.FOld, first := it.FirstSharedF,
             count := (it.SharedFCount : Int), rank := it.Rank },
           { kind := RequestKind.Send, buffer := Buffer.FNew, first := it.FirstSharedF,
             count := (it.SharedFCount : Int), rank := it.Rank }])) := by
  have hcast : castInt 2147483648 = -2147483648 := by
    simp only [castInt, Int.bmod]
    norm_num
  have hposted : RequestComms wideTopology []
      = [{ kind := RequestKind.Receive, buffer := Buffer.FOld, first := 0,
           count := -2147483648, rank := 1 },
         { kind := RequestKind.Send, buffer := Buffer.FNew, first := 0,
           count := -2147483648, rank := 1 }] := by
    simp only [RequestComms, wideTopology, List.foldl_cons, List.foldl_nil, List.nil_append,
      List.cons_append, hcast]
  refine ⟨hposted, ?_⟩
  rw [hposted]
  simp only [wideTopology, List.flatMap_cons, List.flatMap_nil, List.append_nil,
    List.cons.injEq, Request.mk.injEq, and_true, true_and]
  norm_num

theorem PostReceive_copy_closed (p0 : NeighbouringProcessor) (rest : List NeighbouringProcessor)
    (s : LBM K CO) (n : Nat) :
    PostReceive_copy { NeighbouringProcs := p0 :: rest, TotalSharedFs := n } s
    = some { s with mLatDat := { s.mLatDat with
        FNew := (List.range n).foldl
          (fun (f : Nat → K) (i : Nat) =>
            Function.update f (s.receivedFTranslator i) (s.mLatDat.FOld (p0.FirstSharedF + i)))
          s.mLatDat.FNew } } := by
  induction n with
  | zero => rfl
  | succ n ih =>
    unfold PostReceive_copy at ih ⊢
    rw [List.range_succ, List.foldl_append, ih, List.foldl_append]
    rfl

theorem copy_untouched (tr : Nat → Nat) (src : Nat → K) (f : Nat → K) (n j : Nat)
    (hj : ∀ i, i < n → tr i ≠ j) :
    (List.range n).foldl (fun (f : Nat → K) (i : Nat) => Function.update f (tr i) (src i)) f j
      = f j := by
  induction n with
  | zero => simp
  | succ n ih =>
    simp only [List.range_succ, List.foldl_append, List.foldl_cons, List.foldl_nil]
    rw [Function.update_noteq (hj n (Nat.lt_succ_self n)).symm]
    exact ih (fun i hi => hj i (Nat.lt_succ_of_lt hi))

theorem copy_written (tr : Nat → Nat) (src : Nat → K) (f : Nat → K) (n : Nat)
    (hinj : ∀ i j, i < n → j < n → tr i = tr j → i = j) (i : Nat) (hi : i < n) :
    (List.range n).foldl (fun (f : Nat → K) (i : Nat) => Function.update f (tr i) (src i)) f
      (tr i) = src i := by
  induction n with
  | zero => omega
  | succ n ih =>
    simp only [List.range_succ, List.foldl_append, List.foldl_cons, List.foldl_nil]
    by_cases hin : i = n
    · subst hin
      simp
    · have hlt : i < n := by omega
      have hne : tr i ≠ tr n := fun h => hin (hinj i n hi (Nat.lt_succ_self n) h)
      rw [Function.update_noteq hne]
      exact ih (fun a b ha hb => hinj a b (Nat.lt_succ_of_lt ha) (Nat.lt_succ_of_lt hb)) hlt

/-- C4: when the neighbour list has a first entry and the translation table is
injective below `TotalSharedFs`, the copy loop of `PostReceive` ends in a state
whose `FNew` holds at `receivedFTranslator[i]` the value of the old buffer at
`NeighbouringProcs[0].FirstSharedF + i` for every `i < TotalSharedFs`, is
unchanged at every index that is no `receivedFTranslator[i]`, and which is
otherwise the state before (`FOld` included); with `TotalSharedFs = 0` the loop
returns the state unchanged whatever the neighbour list, the empty one
included. -/
theorem PostReceive_copy_spec (netTop : NetworkTopology) (s : LBM K CO) :
    (∀ (p0 : NeighbouringProcessor) (rest : List NeighbouringProcessor),
      netTop.NeighbouringProcs = p0 :: rest →
      (∀ i j, i < netTop.TotalSharedFs → j < netTop.TotalSharedFs →
        s.receivedFTranslator i = s.receivedFTranslator j → i = j) →
      ∃ s' : LBM K CO, PostReceive_copy netTop s = some s'
        ∧ (∀ i, i < netTop.TotalSharedFs →
            s'.mLatDat.FNew (s.receivedFTranslator i) = s.mLatDat.FOld (p0.FirstSharedF + i))
        ∧ (∀ j, (∀ i, i < netTop.TotalSharedFs → s.receivedFTranslator i ≠ j) →
            s'.mLatDat.FNew j = s.mLatDat.FNew j)
        ∧ s'.mLatDat.FOld = s.mLatDat.FOld
        ∧ s' = { s with mLatDat := { s.mLatDat with FNew := s'.mLatDat.FNew } })
    ∧ (netTop.TotalSharedFs = 0 → PostReceive_copy netTop s = some s) := by
  constructor
  · intro p0 rest hprocs hinj
    refine ⟨{ s with mLatDat := { s.mLatDat with
        FNew := (List.range netTop.TotalSharedFs).foldl
          (fun (f : Nat → K) (i : Nat) =>
            Function.update f (s.receivedFTranslator i) (s.mLatDat.FOld (p0.FirstSharedF + i)))
          s.mLatDat.FNew } }, ?_, ?_, ?_, rfl, rfl⟩
    · obtain ⟨procs, n⟩ := netTop
      simp only at hprocs
      subst hprocs
      exact PostReceive_copy_closed p0 rest s n
    · intro i hi
      exact copy_written s.receivedFTranslator (fun i => s.mLatDat.FOld (p0.FirstSharedF + i))
        s.mLatDat.FNew netTop.TotalSharedFs hinj i hi
    · intro j hj
      exact copy_untouched s.receivedFTranslator (fun i => s.mLatDat.FOld (p0.FirstSharedF + i))
        s.mLatDat.FNew netTop.TotalSharedFs j hj
  · intro h0
    simp [PostReceive_copy, h0]

theorem PostReceive_copy_spec_witness :
    ∃ s' : LBM ℚ Unit, PostReceive_copy exampleTopology (exampleLBM ℚ) = some s'
      ∧ (∀ i, i < 75 → s'.mLatDat.FNew (2 * i) = ((765 + i : Nat) : ℚ)) :=
  match (PostReceive_copy_spec exampleTopology (exampleLBM ℚ)).1
      { Rank := 3, SharedFCount := 30, FirstSharedF := 765 }
      [{ Rank := 7, SharedFCount := 45, FirstSharedF := 795 }] rfl
      (fun i j _ _ h => by simp only [exampleLBM] at h; omega) with
  | ⟨s', h1, h2, _⟩ => ⟨s', h1, h2⟩

/-- C6: `RecalculateTauViscosityOmega` run on two states that agree on the time
steps per cycle and the voxel size (with the same physical constants) yields
the same `Tau`, `Omega`, `Beta` and `StressParameter`, whatever either state
held before, and it changes no member but the parameter block. -/
theorem RecalculateTauViscosityOmega_deterministic [Field K] (sqrt : K → K)
    (c : PhysicalConstants K) (s1 s2 : LBM K CO)
    (hsteps : s1.mState.TimeStepsPerCycle = s2.mState.TimeStepsPerCycle)
    (hvoxel : s1.voxel_size = s2.voxel_size) :
    (RecalculateTauViscosityOmega sqrt c s1).mParams
        = (RecalculateTauViscosityOmega sqrt c s2).mParams
    ∧ RecalculateTauViscosityOmega sqrt c s1
        = { s1 with mParams := (RecalculateTauViscosityOmega sqrt c s1).mParams }
    ∧ RecalculateTauViscosityOmega sqrt c s2
        = { s2 with mParams := (RecalculateTauViscosityOmega sqrt c s2).mParams } := by
  refine ⟨?_, rfl, rfl⟩
  simp only [RecalculateTauViscosityOmega, hsteps, hvoxel]

theorem RecalculateTauViscosityOmega_deterministic_witness :
    (exampleLBM ℝ).mParams.Tau ≠ (exampleLBM2 ℝ).mParams.Tau
    ∧ (RecalculateTauViscosityOmega Real.sqrt (examplePhysics ℝ) (exampleLBM ℝ)).mParams
        = (RecalculateTauViscosityOmega Real.sqrt (examplePhysics ℝ) (exampleLBM2 ℝ)).mParams :=
  ⟨by simp [exampleLBM, exampleLBM2],
   (RecalculateTauViscosityOmega_deterministic Real.sqrt (examplePhysics ℝ)
      (exampleLBM ℝ) (exampleLBM2 ℝ) rfl rfl).1⟩

/-- C10: over the reals, with positive time steps per cycle, non-zero voxel size
and positive physical constants, no divisor of `RecalculateTauViscosityOmega` is
zero and its results satisfy `Tau > 1/2`, `-2 < Omega < 0`, `Beta = Omega / 2`,
`-1 < Beta < 0`, `StressParameter = (1 + Beta) / sqrt 2` and
`0 < StressParameter < 1 / sqrt 2`. -/
theorem RecalculateTauViscosityOmega_bounds (c : PhysicalConstants ℝ) (s : LBM ℝ CO)
    (hperiod : 0 < c.PULSATILE_PERIOD_s) (hvisc : 0 < c.BLOOD_VISCOSITY_Pa_s)
    (hdens : 0 < c.BLOOD_DENSITY_Kg_per_m3) (hcs : 0 < c.Cs2)
    (hsteps : 0 < s.mState.TimeStepsPerCycle) (hvoxel : s.voxel_size ≠ 0) :
    (c.BLOOD_DENSITY_Kg_per_m3 ≠ 0
      ∧ c.Cs2 * ((s.mState.TimeStepsPerCycle : ℝ) * s.voxel_size * s.voxel_size) ≠ 0
      ∧ (RecalculateTauViscosityOmega Real.sqrt c s).mParams.Tau ≠ 0
      ∧ 2 * (RecalculateTauViscosityOmega Real.sqrt c s).mParams.Tau ≠ 0
      ∧ Real.sqrt 2 ≠ 0)
    ∧ 1 / 2 < (RecalculateTauViscosityOmega Real.sqrt c s).mParams.Tau
    ∧ -2 < (RecalculateTauViscosityOmega Real.sqrt c s).mParams.Omega
    ∧ (RecalculateTauViscosityOmega Real.sqrt c s).mParams.Omega < 0
    ∧ (RecalculateTauViscosityOmega Real.sqrt c s).mParams.Beta
        = (RecalculateTauViscosityOmega Real.sqrt c s).mParams.Omega / 2
    ∧ -1 < (RecalculateTauViscosityOmega Real.sqrt c s).mParams.Beta
    ∧ (RecalculateTauViscosityOmega Real.sqrt c s).mParams.Beta < 0
    ∧ (RecalculateTauViscosityOmega Real.sqrt c s).mParams.StressParameter
        = (1 + (RecalculateTauViscosityOmega Real.sqrt c s).mParams.Beta) / Real.sqrt 2
    ∧ 0 < (RecalculateTauViscosityOmega Real.sqrt c s).mParams.StressParameter
    ∧ (RecalculateTauViscosityOmega Real.sqrt c s).mParams.StressParameter
        < 1 / Real.sqrt 2 := by
  have hn : (0 : ℝ) < (s.mState.TimeStepsPerCycle : ℝ) := by exact_mod_cast hsteps
  have hvv : 0 < s.voxel_size * s.voxel_size := mul_self_pos.2 hvoxel
  have hden : 0 < c.Cs2 * ((s.mState.TimeStepsPerCycle : ℝ) * s.voxel_size * s.voxel_size) := by
    rw [mul_assoc]
    exact mul_pos hcs (mul_pos hn hvv)
  have hnum : 0 < c.PULSATILE_PERIOD_s * c.BLOOD_VISCOSITY_Pa_s / c.BLOOD_DENSITY_Kg_per_m3 :=
    div_pos (mul_pos hperiod hvisc) hdens
  have hA := div_pos hnum hden
  have hs2 : 0 < Real.sqrt 2 := Real.sqrt_pos.2 (by norm_num)
  simp only [RecalculateTauViscosityOmega]
  generalize c.PULSATILE_PERIOD_s * c.BLOOD_VISCOSITY_Pa_s / c.BLOOD_DENSITY_Kg_per_m3
    / (c.Cs2 * ((s.mState.TimeStepsPerCycle : ℝ) * s.voxel_size * s.voxel_size)) = A at hA ⊢
  have hT : 0 < 1 / 2 + A := by linarith
  have h2T : 0 < 2 * (1 / 2 + A) := by linarith
  have hinv : 1 / (2 * (1 / 2 + A)) < 1 := by
    rw [div_lt_one h2T]
    linarith
  have hinvpos : 0 < 1 / (2 * (1 / 2 + A)) := one_div_pos.2 h2T
  have hbeta : -1 / (2 * (1 / 2 + A)) = -(1 / (2 * (1 / 2 + A))) := by ring
  have homega : -1 / (1 / 2 + A) = -(2 * (1 / (2 * (1 / 2 + A)))) := by
    field_simp
  refine ⟨⟨hdens.ne', hden.ne', hT.ne', h2T.ne', hs2.ne'⟩, by linarith, ?_, ?_, ?_, ?_, ?_, ?_,
    ?_, ?_⟩
  · rw [homega]; linarith
  · rw [homega]; linarith
  · rw [homega, hbeta]; ring
  · rw [hbeta]; linarith
  · rw [hbeta]; linarith
  · rw [hbeta]; ring
  · exact div_pos (by linarith) hs2
  · exact div_lt_div_of_pos_right (by linarith) hs2

theorem RecalculateTauViscosityOmega_bounds_witness :
    (0 < (examplePhysics ℝ).PULSATILE_PERIOD_s ∧ (exampleLBM ℝ).voxel_size ≠ 0)
    ∧ 1 / 2 < (RecalculateTauViscosityOmega Real.sqrt (examplePhysics ℝ)
                (exampleLBM ℝ)).mParams.Tau :=
  ⟨⟨by norm_num [examplePhysics], by norm_num [exampleLBM]⟩,
   (RecalculateTauViscosityOmega_bounds (examplePhysics ℝ) (exampleLBM ℝ)
      (by norm_num [examplePhysics]) (by norm_num [examplePhysics])
      (by norm_num [examplePhysics]) (by norm_num [examplePhysics])
      (by norm_num [exampleLBM]) (by norm_num [exampleLBM])).2.1⟩

theorem inletVelocity_real (density vx vy vz n0 n1 n2 : ℝ) (hd : 0 < density) :
    inletVelocity Real.sqrt density vx vy vz n0 n1 n2
        = Real.sqrt (vx * n0 * (vx * n0) + vy * n1 * (vy * n1) + vz * n2 * (vz * n2)) / density
    ∧ 0 ≤ inletVelocity Real.sqrt density vx vy vz n0 n1 n2
    ∧ (¬ (vx * n0 * (vx * n0) + vy * n1 * (vy * n1) + vz * n2 * (vz * n2) > 0)
        ↔ vx * n0 * (vx * n0) + vy * n1 * (vy * n1) + vz * n2 * (vz * n2) = 0)
    ∧ (vx * n0 * (vx * n0) + vy * n1 * (vy * n1) + vz * n2 * (vz * n2) = 0
        → inletVelocity Real.sqrt density vx vy vz n0 n1 n2 = 0) := by
  have hs : 0 ≤ vx * n0 * (vx * n0) + vy * n1 * (vy * n1) + vz * n2 * (vz * n2) := by
    nlinarith [mul_self_nonneg (vx * n0), mul_self_nonneg (vy * n1), mul_self_nonneg (vz * n2)]
  simp only [inletVelocity]
  generalize vx * n0 * (vx * n0) + vy * n1 * (vy * n1) + vz * n2 * (vz * n2) = sq at hs ⊢
  have hiff : ¬ (sq > 0) ↔ sq = 0 := by
    constructor
    · intro h; exact le_antisymm (not_lt.1 h) hs
    · intro h; rw [h]; exact lt_irrefl 0
  by_cases hpos : sq > 0
  · rw [if_pos hpos]
    refine ⟨rfl, div_nonneg (Real.sqrt_nonneg sq) hd.le, hiff, ?_⟩
    intro h0
    exact absurd h0 hpos.ne'
  · have h0 : sq = 0 := hiff.1 hpos
    rw [if_neg hpos, h0]
    simp

theorem foldl_append_pair {α β : Type} (g : α → β) (l : List α) (out : List (α × β)) :
    l.foldl (fun (out : List (α × β)) (i : α) => out ++ [(i, g i)]) out
      = out ++ l.map (fun i => (i, g i)) := by
  induction l generalizing out with
  | nil => simp
  | cons a l ih => simp [ih]

/-- C9: over the reals, every value `UpdateInletVelocities` computes for a site
whose density is positive is `sqrt sq / density`, where `sq` is the sum of the
squares of the velocity components scaled by the inlet normal; `sq > 0` fails
only when `sq = 0`, where the value is zero, and the value is never negative.
The sites are those of the inner and of the inter inlet range, in order. -/
theorem UpdateInletVelocities_values
    (CalculateDensityAndVelocity : (Nat → ℝ) → ℝ × ℝ × ℝ × ℝ) (s : LBM ℝ CO) :
    (UpdateInletVelocities Real.sqrt CalculateDensityAndVelocity s).map Prod.fst
      = List.range' (s.mLatDat.InnerCollisionCount 0 + s.mLatDat.InnerCollisionCount 1)
          (s.mLatDat.InnerCollisionCount 2)
        ++ List.range' (s.mLatDat.InnerSiteCount + s.mLatDat.InterCollisionCount 0
              + s.mLatDat.InterCollisionCount 1) (s.mLatDat.InterCollisionCount 2)
    ∧ ∀ (i : Nat) (v : ℝ),
      (i, v) ∈ UpdateInletVelocities Real.sqrt CalculateDensityAndVelocity s →
      ∀ (density vx vy vz : ℝ),
      CalculateDensityAndVelocity (fun l => s.mLatDat.FOld (i * D3Q15.NUMVECTORS + l))
        = (density, vx, vy, vz) →
      0 < density →
      v = Real.sqrt
            (vx * s.inlet_normal (3 * s.mLatDat.BoundaryId i + 0)
                * (vx * s.inlet_normal (3 * s.mLatDat.BoundaryId i + 0))
              + vy * s.inlet_normal (3 * s.mLatDat.BoundaryId i + 1)
                * (vy * s.inlet_normal (3 * s.mLatDat.BoundaryId i + 1))
              + vz * s.inlet_normal (3 * s.mLatDat.BoundaryId i + 2)
                * (vz * s.inlet_normal (3 * s.mLatDat.BoundaryId i + 2))) / density
      ∧ 0 ≤ v
      ∧ (¬ (vx * s.inlet_normal (3 * s.mLatDat.BoundaryId i + 0)
                * (vx * s.inlet_normal (3 * s.mLatDat.BoundaryId i + 0))
              + vy * s.inlet_normal (3 * s.mLatDat.BoundaryId i + 1)
                * (vy * s.inlet_normal (3 * s.mLatDat.BoundaryId i + 1))
              + vz * s.inlet_normal (3 * s.mLatDat.BoundaryId i + 2)
                * (vz * s.inlet_normal (3 * s.mLatDat.BoundaryId i + 2)) > 0)
          ↔ vx * s.inlet_normal (3 * s.mLatDat.BoundaryId i + 0)
                * (vx * s.inlet_normal (3 * s.mLatDat.BoundaryId i + 0))
              + vy * s.inlet_normal (3 * s.mLatDat.BoundaryId i + 1)
                * (vy * s.inlet_normal (3 * s.mLatDat.BoundaryId i + 1))
              + vz * s.inlet_normal (3 * s.mLatDat.BoundaryId i + 2)
                * (vz * s.inlet_normal (3 * s.mLatDat.BoundaryId i + 2)) = 0)
      ∧ (vx * s.inlet_normal (3 * s.mLatDat.BoundaryId i + 0)
                * (vx * s.inlet_normal (3 * s.mLatDat.BoundaryId i + 0))
              + vy * s.inlet_normal (3 * s.mLatDat.BoundaryId i + 1)
                * (vy * s.inlet_normal (3 * s.mLatDat.BoundaryId i + 1))
              + vz * s.inlet_normal (3 * s.mLatDat.BoundaryId i + 2)
                * (vz * s.inlet_normal (3 * s.mLatDat.BoundaryId i + 2)) = 0 → v = 0) := by
  have hlist : UpdateInletVelocities Real.sqrt CalculateDensityAndVelocity s
      = (List.range' (s.mLatDat.InnerCollisionCount 0 + s.mLatDat.InnerCollisionCount 1)
          (s.mLatDat.InnerCollisionCount 2)
        ++ List.range' (s.mLatDat.InnerSiteCount + s.mLatDat.InterCollisionCount 0
              + s.mLatDat.InterCollisionCount 1) (s.mLatDat.InterCollisionCount 2)).map
          (fun i => (i, inletVelocityAt Real.sqrt CalculateDensityAndVelocity s i)) := by
    simp only [UpdateInletVelocities, foldl_append_pair, List.nil_append, List.map_append]
  constructor
  · rw [hlist, List.map_map]
    exact List.map_id _
  · intro i v hmem density vx vy vz hdv hd
    rw [hlist, List.mem_map] at hmem
    obtain ⟨j, _, hj⟩ := hmem
    simp only [Prod.mk.injEq] at hj
    obtain ⟨rfl, rfl⟩ := hj
    simp only [inletVelocityAt, hdv]
    exact inletVelocity_real density vx vy vz _ _ _ hd

theorem UpdateInletVelocities_values_witness :
    ((3 : Nat), inletVelocityAt Real.sqrt (fun f => (f 0, f 1, f 2, f 3)) (exampleLBM ℝ) 3)
        ∈ UpdateInletVelocities Real.sqrt (fun f => (f 0, f 1, f 2, f 3)) (exampleLBM ℝ)
    ∧ 0 ≤ inletVelocityAt Real.sqrt (fun f => (f 0, f 1, f 2, f 3)) (exampleLBM ℝ) 3 :=
  ⟨by simp [UpdateInletVelocities, exampleLBM, List.range'],
   ((UpdateInletVelocities_values (fun f => (f 0, f 1, f 2, f 3)) (exampleLBM ℝ)).2 3 _
      (by simp [UpdateInletVelocities, exampleLBM, List.range'])
      45 46 47 48 (by simp [exampleLBM, D3Q15.NUMVECTORS]) (by norm_num)).2.1⟩

theorem site_loop_spec (f_eq : Nat → K) (i m : Nat) (lat : LatticeData K) :
    (∀ l, l < m →
      ((List.range m).foldl
        (fun (mLatDat : LatticeData K) (l : Nat) =>
          let mLatDat := { mLatDat with
            FOld := Function.update mLatDat.FOld (i * D3Q15.NUMVECTORS + l) (f_eq l) }
          { mLatDat with
            FNew := Function.update mLatDat.FNew (i * D3Q15.NUMVECTORS + l)
                      (mLatDat.FOld (i * D3Q15.NUMVECTORS + l)) }) lat).FOld
          (i * D3Q15.NUMVECTORS + l) = f_eq l
      ∧ ((List.range m).foldl
        (fun (mLatDat : LatticeData K) (l : Nat) =>
          let mLatDat := { mLatDat with
            FOld := Function.update mLatDat.FOld (i * D3Q15.NUMVECTORS + l) (f_eq l) }
          { mLatDat with
            FNew := Function.update mLatDat.FNew (i * D3Q15.NUMVECTORS + l)
                      (mLatDat.FOld (i * D3Q15.NUMVECTORS + l)) }) lat).FNew
          (i * D3Q15.NUMVECTORS + l) = f_eq l)
    ∧ (∀ j, (∀ l, l < m → j ≠ i * D3Q15.NUMVECTORS + l) →
      ((List.range m).foldl
        (fun (mLatDat : LatticeData K) (l : Nat) =>
          let mLatDat := { mLatDat with
            FOld := Function.update mLatDat.FOld (i * D3Q15.NUMVECTORS + l) (f_eq l) }
          { mLatDat with
            FNew := Function.update mLatDat.FNew (i * D3Q15.NUMVECTORS + l)
                      (mLatDat.FOld (i * D3Q15.NUMVECTORS + l)) }) lat).FOld j = lat.FOld j
      ∧ ((List.range m).foldl
        (fun (mLatDat : LatticeData K) (l : Nat) =>
          let mLatDat := { mLatDat with
            FOld := Function.update mLatDat.FOld (i * D3Q15.NUMVECTORS + l) (f_eq l) }
          { mLatDat with
            FNew := Function.update mLatDat.FNew (i * D3Q15.NUMVECTORS + l)
                      (mLatDat.FOld (i * D3Q15.NUMVECTORS + l)) }) lat).FNew j = lat.FNew j) := by
  induction m with
  | zero =>
    refine ⟨fun l hl => absurd hl (Nat.not_lt_zero l), fun j _ => ?_⟩
    simp
  | succ m ih =>
    obtain ⟨iha, ihb⟩ := ih
    simp only [List.range_succ, List.foldl_append, List.foldl_cons, List.foldl_nil]
    constructor
    · intro l hl
      by_cases hlm : l = m
      · subst hlm
        simp
      · have hne : i * D3Q15.NUMVECTORS + l ≠ i * D3Q15.NUMVECTORS + m := by omega
        have hlt : l < m := by omega
        simp only [Function.update_noteq hne]
        exact iha l hlt
    · intro j hj
      have hne : j ≠ i * D3Q15.NUMVECTORS + m := hj m (Nat.lt_succ_self m)
      simp only [Function.update_noteq hne]
      exact ihb j (fun l hl => hj l (Nat.lt_succ_of_lt hl))

theorem SetInitialConditions_populations [Field K] (CalculateFeq : K → K → K → K → Nat → K)
    (s : LBM K CO) (i l : Nat) (hi : i < s.mLatDat.LocalFluidSiteCount)
    (hl : l < D3Q15.NUMVECTORS) :
    (SetInitialConditions CalculateFeq s).mLatDat.FOld (i * D3Q15.NUMVECTORS + l)
        = CalculateFeq (initialDensity s) 0 0 0 l
    ∧ (SetInitialConditions CalculateFeq s).mLatDat.FNew (i * D3Q15.NUMVECTORS + l)
        = CalculateFeq (initialDensity s) 0 0 0 l := by
  simp only [SetInitialConditions]
  generalize s.mLatDat.LocalFluidSiteCount = n at hi
  generalize s.mLatDat = lat
  induction n with
  | zero => omega
  | succ n ih =>
    simp only [List.range_succ, List.foldl_append, List.foldl_cons, List.foldl_nil]
    by_cases hin : i = n
    · subst hin
      exact (site_loop_spec _ i D3Q15.NUMVECTORS _).1 l hl
    · have hlt : i < n := by omega
      have hfar : ∀ l', l' < D3Q15.NUMVECTORS →
          i * D3Q15.NUMVECTORS + l ≠ n * D3Q15.NUMVECTORS + l' := by
        intro l' _
        have : (i + 1) * D3Q15.NUMVECTORS ≤ n * D3Q15.NUMVECTORS :=
          Nat.mul_le_mul_right _ hlt
        rw [Nat.add_mul] at this
        omega
      have hkeep := (site_loop_spec (CalculateFeq (initialDensity s) 0 0 0) n
        D3Q15.NUMVECTORS
        ((List.range n).foldl
          (fun (mLatDat : LatticeData K) (i : Nat) =>
            setSitePopulations (CalculateFeq (initialDensity s) 0 0 0) i mLatDat) lat)).2
        (i * D3Q15.NUMVECTORS + l) hfar
      have := ih hlt
      exact ⟨hkeep.1.trans this.1, hkeep.2.trans this.2⟩

theorem initialDensity_eq [Field K] (s : LBM K CO) :
    initialDensity s
      = (∑ k in Finset.range s.outlets, (s.outlet_density_avg k - s.outlet_density_amp k))
          / (s.outlets : K) := by
  simp only [initialDensity]
  congr 1
  generalize s.outlets = n
  induction n with
  | zero => simp
  | succ n ih =>
    rw [List.range_succ, List.foldl_append, ih, Finset.sum_range_succ]
    rfl

/-- C3 (as the code has it): after `Reset` with at least one outlet, for every
local fluid site `i` and direction `l < 15` the old and the new population of
site `i` in direction `l` equal component `l` of `CalculateFeq(rho, 0, 0, 0)`,
where `rho` is the mean over the outlets of `outlet_density_avg[k] -
outlet_density_amp[k]`; the value depends neither on the site nor on the
populations held before. -/
theorem Reset_populations [Field K] (sqrt : K → K) (c : PhysicalConstants K)
    (CalculateFeq : K → K → K → K → Nat → K)
    (coReset : LatticeData K → LbmParameters K → CO → CO) (s : LBM K CO)
    (houtlets : 0 < s.outlets) (i l : Nat)
    (hi : i < s.mLatDat.LocalFluidSiteCount) (hl : l < 15) :
    (Reset sqrt c CalculateFeq coReset s).mLatDat.FOld (i * 15 + l)
        = CalculateFeq
            ((∑ k in Finset.range s.outlets, (s.outlet_density_avg k - s.outlet_density_amp k))
              / (s.outlets : K)) 0 0 0 l
    ∧ (Reset sqrt c CalculateFeq coReset s).mLatDat.FNew (i * 15 + l)
        = CalculateFeq
            ((∑ k in Finset.range s.outlets, (s.outlet_density_avg k - s.outlet_density_amp k))
              / (s.outlets : K)) 0 0 0 l := by
  have _ := houtlets
  have h := SetInitialConditions_populations CalculateFeq
    (RecalculateTauViscosityOmega sqrt c s) i l hi hl
  have hd : initialDensity (RecalculateTauViscosityOmega sqrt c s) = initialDensity s := rfl
  rw [hd, initialDensity_eq] at h
  exact h

theorem Reset_populations_witness :
    0 < (exampleLBM ℝ).outlets
    ∧ (Reset Real.sqrt (examplePhysics ℝ) D3Q15.CalculateFeq (fun _ _ co => co)
          (exampleLBM ℝ)).mLatDat.FOld (50 * 15 + 14)
        = D3Q15.CalculateFeq
            ((∑ k in Finset.range (exampleLBM ℝ).outlets,
                ((exampleLBM ℝ).outlet_density_avg k - (exampleLBM ℝ).outlet_density_amp k))
              / ((exampleLBM ℝ).outlets : ℝ)) 0 0 0 14 :=
  ⟨by decide,
   (Reset_populations Real.sqrt (examplePhysics ℝ) D3Q15.CalculateFeq (fun _ _ co => co)
      (exampleLBM ℝ) (by decide) 50 14 (by decide) (by decide)).1⟩

/-- C3 as stated fails: with one outlet of average density 1 and amplitude 1/2,
the populations after `Reset` are not the equilibrium for the mean of
`outlet_density_avg` (density 1): the rest population of site 0 is 1/9, that
equilibrium has 2/9. -/
theorem Reset_mean_of_avg_counterexample :
    ¬ (∀ i l : Nat, i < (exampleLBM ℝ).mLatDat.LocalFluidSiteCount → l < 15 →
        (Reset Real.sqrt (examplePhysics ℝ) D3Q15.CalculateFeq (fun _ _ co => co)
            (exampleLBM ℝ)).mLatDat.FOld (i * 15 + l)
          = D3Q15.CalculateFeq
              ((∑ k in Finset.range (exampleLBM ℝ).outlets, (exampleLBM ℝ).outlet_density_avg k)
                / ((exampleLBM ℝ).outlets : ℝ)) 0 0 0 l
        ∧ (Reset Real.sqrt (examplePhysics ℝ) D3Q15.CalculateFeq (fun _ _ co => co)
            (exampleLBM ℝ)).mLatDat.FNew (i * 15 + l)
          = D3Q15.CalculateFeq
              ((∑ k in Finset.range (exampleLBM ℝ).outlets, (exampleLBM ℝ).outlet_density_avg k)
                / ((exampleLBM ℝ).outlets : ℝ)) 0 0 0 l) := by
  intro h
  have h0 := (h 0 0 (by decide) (by decide)).1
  have hcode := (SetInitialConditions_populations D3Q15.CalculateFeq
    (RecalculateTauViscosityOmega Real.sqrt (examplePhysics ℝ) (exampleLBM ℝ)) 0 0
    (by decide) (by decide)).1
  have hd : initialDensity (RecalculateTauViscosityOmega Real.sqrt (examplePhysics ℝ)
      (exampleLBM ℝ)) = 1 / 2 := by
    rw [initialDensity_eq]
    simp [RecalculateTauViscosityOmega, exampleLBM]
    norm_num
  rw [hd] at hcode
  have hsame : (Reset Real.sqrt (examplePhysics ℝ) D3Q15.CalculateFeq (fun _ _ co => co)
      (exampleLBM ℝ)).mLatDat.FOld (0 * 15 + 0)
      = (SetInitialConditions D3Q15.CalculateFeq
          (RecalculateTauViscosityOmega Real.sqrt (examplePhysics ℝ)
            (exampleLBM ℝ))).mLatDat.FOld (0 * D3Q15.NUMVECTORS + 0) := rfl
  rw [hsame, hcode] at h0
  simp [D3Q15.CalculateFeq, D3Q15.weight, D3Q15.CX, D3Q15.CY, D3Q15.CZ, exampleLBM] at h0

/-- C7 (what the code does): `Reset` leaves the time steps per cycle as they
were, and the new `Tau` is derived from that unchanged number; in the state
`exampleLBM` there are 1000 time steps per cycle before and after, not 2000. -/
theorem Reset_keeps_TimeStepsPerCycle :
    (∀ (K CO : Type) [Field K] (sqrt : K → K) (c : PhysicalConstants K)
        (CalculateFeq : K → K → K → K → Nat → K)
        (coReset : LatticeData K → LbmParameters K → CO → CO) (s : LBM K CO),
      (Reset sqrt c CalculateFeq coReset s).mState.TimeStepsPerCycle
          = s.mState.TimeStepsPerCycle
      ∧ (Reset sqrt c CalculateFeq coReset s).mParams.Tau
          = 1 / 2 + (c.PULSATILE_PERIOD_s * c.BLOOD_VISCOSITY_Pa_s / c.BLOOD_DENSITY_Kg_per_m3)
              / (c.Cs2 * ((s.mState.TimeStepsPerCycle : K) * s.voxel_size * s.voxel_size)))
    ∧ (exampleLBM ℝ).mState.TimeStepsPerCycle = 1000
    ∧ (Reset Real.sqrt (examplePhysics ℝ) D3Q15.CalculateFeq (fun _ _ co => co)
        (exampleLBM ℝ)).mState.TimeStepsPerCycle = 1000
    ∧ (Reset Real.sqrt (examplePhysics ℝ) D3Q15.CalculateFeq (fun _ _ co => co)
        (exampleLBM ℝ)).mState.TimeStepsPerCycle
        ≠ 2 * (exampleLBM ℝ).mState.TimeStepsPerCycle := by
  refine ⟨fun K CO _ sqrt c CalculateFeq coReset s => ⟨rfl, rfl⟩, rfl, rfl, ?_⟩
  show (1000 : Nat) ≠ 2 * 1000
  decide

end hemelb.lb
